import Mathlib

/-!
# Verification of the KolHalashon API client core

Shallow embedding of `src/kolhalashon/api.py` (class `KolHalashonAPI`): the
session/login lifecycle, the response mappers (`format_shiurim`,
`_parse_shiur_details`) and the four façade operations (`search_items`,
`search_rav_shiurim`, `get_shiur_details`, `download_file`).

HTTP traffic is modelled by passing the remote response in as data and
recording every outward side effect (HTTP calls, download-key fetches, file
writes) in an explicit effect trace, so that "no network call is made" is a
provable statement about the trace.  Python exceptions become an error type
`ApiExc` whose constructors mirror the arguments the source passes at each
raise site; a dynamic-typing failure (`.get` on a non-mapping payload) is
embedded as the `malformedResponse` error kind of the specification's error
taxonomy.

The files `models/shiur.py`, `models/exceptions.py` and
`utils/session_manager.py` are not part of the sources; the few facts taken
from the specification instead of code are marked `Modelled from the spec:`
in their doc comments.
-/

set_option autoImplicit false

namespace KolHalashon

/-- Dynamically-typed JSON values, the payload type of every remote response. -/
inductive Json where
  | null
  | bool (b : Bool)
  | num (n : Int)
  | str (s : String)
  | arr (items : List Json)
  | obj (fields : List (String × Json))
  deriving Repr

/-- Python truthiness of a JSON value, used by `if token:` in `__login`. -/
def Json.truthy : Json → Bool
  | .null => false
  | .bool b => b
  | .num n => decide (n ≠ 0)
  | .str s => decide (s ≠ "")
  | .arr items => !items.isEmpty
  | .obj fields => !fields.isEmpty

/-- Whether a JSON value is a mapping (a Python `dict`). -/
def Json.isObj : Json → Bool
  | .obj _ => true
  | _ => false

/-- First value stored under key `k`, if any (`dict` lookup). -/
def lookupJson (fields : List (String × Json)) (k : String) : Option Json :=
  (fields.find? (fun p => p.1 = k)).map (fun p => p.2)

/-- Python `dict.get(k, d)`: the stored value, or the default `d`. -/
def getD (fields : List (String × Json)) (k : String) (d : Json) : Json :=
  match fields.find? (fun p => p.1 = k) with
  | some p => p.2
  | none => d

/-- Download quality selector.
Modelled from the spec: the enum `QualityLevel` lives in the absent
`models/shiur.py`; the glossary fixes its three variants (audio-only,
standard video, high definition).  The numeric wire values are used only
inside the download URL. -/
inductive QualityLevel where
  | audio
  | video
  | hd
  deriving Repr, DecidableEq

/-- Modelled from the spec: the wire value interpolated into the download
URL path (`models/shiur.py` is absent; no claim depends on the numbers). -/
def QualityLevel.value : QualityLevel → Nat
  | .audio => 1
  | .video => 2
  | .hd => 3

/-- The exceptions the client raises.  Constructor arguments mirror the
raise sites in `api.py` (the exception classes themselves live in the absent
`models/exceptions.py`): `AuthenticationError(msg)`,
`SearchFailedException(msg, status_code)`,
`DownloadFailedException(msg, status_code, file_id, quality_level)`,
`ShiurDetailsNotFoundException(file_id)`, `SessionDisabledException()`,
`SessionNotLoadedException()`; `malformedResponse` is the spec's error kind
for a dynamic failure of `.get` on a non-mapping payload. -/
inductive ApiExc where
  | sessionNotLoaded
  | sessionDisabled
  | authenticationError (msg : String)
  | searchFailed (msg : String) (statusCode : Nat)
  | downloadFailed (msg : String) (statusCode : Nat) (fileId : Int) (qualityLevel : QualityLevel)
  | shiurDetailsNotFound (fileId : Int)
  | malformedResponse
  deriving Repr

/-- One remote HTTP response: status code and decoded JSON body. -/
structure HttpResponse where
  status : Nat
  body : Json

/-- An outward side effect of the client, recorded in order. -/
inductive Effect where
  | httpPost (url : String) (headers : List (String × String))
  | httpGet (url : String) (headers : List (String × String))
  | getDownloadKey (fileId : Int)
  | fileWrite (name : String)
  deriving Repr

/-- `self._base_url` in `KolHalashonAPI.__init__`. -/
def base_url : String := "https://www2.kolhalashon.com:444/api/"

/-- `self._headers` in `KolHalashonAPI.__init__`: the two fixed headers. -/
def fixed_headers : List (String × String) :=
  [("origin", "https://www2.kolhalashon.com"),
   ("referer", "https://www2.kolhalashon.com/")]

/-- Authentication state held by the session manager.
Modelled from the spec: `utils/session_manager.py` is absent; §3 of the
spec gives `SessionState` with optional `authToken` and `siteKey` (token
values flow in from `__login` as JSON values). -/
structure SessionManagerState where
  authToken : Option Json
  siteKey : Option Json
  deriving Repr

/-- A freshly constructed session manager: no token, no site key. -/
def SessionManagerState.empty : SessionManagerState :=
  { authToken := none, siteKey := none }

/-- `SessionManager.set_tokens`.
Modelled from the spec: §4.1 — sets both fields together; the derived
headers are recomputed from the state by `session_headers`. -/
def set_tokens (_sm : SessionManagerState) (token siteKey : Json) : SessionManagerState :=
  { authToken := some token, siteKey := some siteKey }

/-- `SessionManager.is_token_valid`.
Modelled from the spec: §4.1 — true only if the token is present and
non-empty (Python truthiness); a syntactic check, no remote call. -/
def is_token_valid (sm : SessionManagerState) : Bool :=
  match sm.authToken with
  | some t => t.truthy
  | none => false

/-- `SessionManager.headers`.
Modelled from the spec: §6 — all requests carry the two fixed headers
plus, when a session exists, an authorization header derived from the
stored token. -/
def session_headers (sm : SessionManagerState) : List (String × String) :=
  match sm.authToken with
  | some (.str t) => fixed_headers ++ [("authorization", "Bearer " ++ t)]
  | some t => fixed_headers ++ [("authorization", "Bearer " ++ toString (repr t))]
  | none => fixed_headers

/-- One search-result record (`Shiur` in the absent `models/shiur.py`);
fields are the fifteen keyword arguments `format_shiurim` passes to the
constructor, kept as dynamically-typed JSON values. -/
structure Shiur where
  file_id : Json
  title : Json
  rav : Json
  duration : Json
  record_date : Json
  main_topic : Json
  category_1 : Json
  category_2 : Json
  audio_available : Json
  video_available : Json
  hd_video_available : Json
  download_count : Json
  women_only : Json
  shiur_type : Json
  viewed_by_user : Json
  deriving Repr

/-- Detailed record (`ShiurDetails` in the absent `models/shiur.py`);
fields are the keyword arguments `_parse_shiur_details` passes. -/
structure ShiurDetails where
  file_id : Json
  title : Json
  rav : Json
  duration : Json
  record_date : Json
  main_topic : Json
  audio_available : Json
  video_available : Json
  hd_video_available : Json
  categories : List Json
  deriving Repr

/-- The loop body of `format_shiurim`: one raw entry to one `Shiur`.
On a mapping, every field is `shiur.get(key, default)`; on anything else
Python's `.get` attribute lookup fails, embedded as `malformedResponse`. -/
def map_search_item (shiur : Json) : Except ApiExc Shiur :=
  match shiur with
  | .obj fields =>
    .ok
      { file_id := getD fields "FileId" (.num 0)
        title := getD fields "TitleHebrew" (.str "")
        rav := getD fields "UserNameHebrew" (.str "")
        duration := getD fields "ShiurDuration" (.str "Unavailable")
        record_date := getD fields "RecordDate" (.str "")
        main_topic := getD fields "MainTopicHebrew" (.str "")
        category_1 := getD fields "CatDesc1" (.str "")
        category_2 := getD fields "CatDesc2" (.str "")
        audio_available := getD fields "HasAudio" (.bool false)
        video_available := getD fields "HasVideo" (.bool false)
        hd_video_available := getD fields "HasHdVideo" (.bool false)
        download_count := getD fields "DownloadCount" (.num 0)
        women_only := getD fields "IsWomenOnly" (.bool false)
        shiur_type := getD fields "ShiurType" (.str "Unavailable")
        viewed_by_user := getD fields "ViewdByUser" (.bool false) }
  | _ => .error .malformedResponse

/-- `KolHalashonAPI.format_shiurim`: iterate the raw list, mapping each
entry with `map_search_item` (iterating a non-list is a dynamic failure). -/
def format_shiurim (shiurim : Json) : Except ApiExc (List Shiur) :=
  match shiurim with
  | .arr items => items.mapM map_search_item
  | _ => .error .malformedResponse

/-- `KolHalashonAPI._parse_shiur_details`: one raw mapping to a
`ShiurDetails`, with `categories` always the two-element list of the two
category lookups. -/
def KolHalashonAPI._parse_shiur_details (data : Json) : Except ApiExc ShiurDetails :=
  match data with
  | .obj fields =>
    .ok
      { file_id := getD fields "FileId" (.num 0)
        title := getD fields "TitleHebrew" (.str "")
        rav := getD fields "UserNameHebrew" (.str "")
        duration := getD fields "ShiurDuration" (.str "Unavailable")
        record_date := getD fields "RecordDate" (.str "")
        main_topic := getD fields "MainTopicHebrew" (.str "")
        audio_available := getD fields "HasAudio" (.bool false)
        video_available := getD fields "HasVideo" (.bool false)
        hd_video_available := getD fields "HasHdVideo" (.bool false)
        categories := [getD fields "CatDesc1" (.str ""), getD fields "CatDesc2" (.str "")] }
  | _ => .error .malformedResponse

/-- `KolHalashonAPI.__login`.  Checks the credentials before anything else;
then issues the one POST (recorded in the trace) and inspects the response:
non-200 raises `AuthenticationError` with the status in the message; a 200
body that is a mapping has its `Token` extracted with `data.get('Token')`
(default `None`), a truthy token is stored via `set_tokens` together with
`data.get('SiteKey', '')` and the call returns `True`, otherwise
`AuthenticationError("Login successful but no token found")`; a 200 body
that is not a mapping fails dynamically at `data.get`, embedded as
`malformedResponse`. -/
def KolHalashonAPI.login (username password : String) (sm : SessionManagerState)
    (resp : HttpResponse) :
    List Effect × Except ApiExc (Bool × SessionManagerState) :=
  if username = "" ∨ password = "" then
    ([], .error (.authenticationError "Username and password are required"))
  else
    let effs := [Effect.httpPost (base_url ++ "Accounts/UserLogin/") fixed_headers]
    if resp.status = 200 then
      match resp.body with
      | .obj data =>
        let token := getD data "Token" .null
        if token.truthy then
          (effs, .ok (true, set_tokens sm token (getD data "SiteKey" (.str ""))))
        else
          (effs, .error (.authenticationError "Login successful but no token found"))
      | _ => (effs, .error .malformedResponse)
    else
      (effs, .error (.authenticationError
        ("Login failed with status code " ++ toString resp.status)))

/-- Outcome of `SessionManager.load_session` as observed by `_init_session`:
either it restores a state, or it raises `SessionNotLoadedException`. -/
inductive LoadOutcome where
  | loaded (sm : SessionManagerState)
  | notLoaded
  deriving Repr

/-- `KolHalashonAPI._init_session`: try `load_session()`, raise
`SessionNotLoadedException` when the restored token is invalid, and in the
handler for that exception call `__login` with the configured credentials.
The result records the credentials passed to `__login`, or `none` when no
login happens. -/
def KolHalashonAPI._init_session (username password : String) (load : LoadOutcome) :
    Option (String × String) :=
  match load with
  | .loaded sm => if is_token_valid sm then none else some (username, password)
  | .notLoaded => some (username, password)

/-- `KolHalashonAPI.search_items`: one GET with the fixed headers
`self._headers`; 200 returns the raw JSON body unmapped, otherwise
`SearchFailedException` with the keyword in the message and the status. -/
def KolHalashonAPI.search_items (_sm : SessionManagerState) (keyword : String)
    (user_id : Int) (resp : HttpResponse) :
    List Effect × Except ApiExc Json :=
  let url := base_url ++ "Search/WebSite_GetSearchItems/" ++ keyword ++ "/" ++
    toString user_id ++ "/1/4"
  ([Effect.httpGet url fixed_headers],
   if resp.status = 200 then .ok resp.body
   else .error (.searchFailed ("Error fetching data for keyword: " ++ keyword) resp.status))

/-- The suspended body of the generator `search_rav_shiurim` returns: the
request it will issue once the consumer starts iterating. -/
structure PendingSearch where
  rav_id : Int
  url : String
  headers : List (String × String)
  payload : List (String × Json)
  deriving Repr

/-- The fixed filter payload `search_rav_shiurim` posts. -/
def rav_shiurim_payload (rav_id : Int) : List (String × Json) :=
  [("QueryType", .num (-1)),
   ("LangID", .num (-1)),
   ("MasechetID", .num (-1)),
   ("DafNo", .num (-1)),
   ("FromRow", .num 0),
   ("NumOfRows", .num 24),
   ("GeneralID", .num rav_id),
   ("FilterSwitch", .str (String.mk (List.replicate 90 (Char.ofNat 49))))]

/-- `KolHalashonAPI.search_rav_shiurim` is a Python generator: the call
itself runs none of the body — no request, no error — and only hands back
the suspended computation. -/
def KolHalashonAPI.search_rav_shiurim (sm : SessionManagerState) (rav_id : Int) :
    List Effect × PendingSearch :=
  ([],
   { rav_id := rav_id
     url := base_url ++ "Search/WebSite_GetRavShiurim/"
     headers := session_headers sm
     payload := rav_shiurim_payload rav_id })

/-- Resuming the generator for the first time runs its body: the one POST
with the session manager's headers, then either `yield from
format_shiurim(response.json())` on 200 or `SearchFailedException` with the
rav id in the message and the status code. -/
def PendingSearch.force (p : PendingSearch) (resp : HttpResponse) :
    List Effect × Except ApiExc (List Shiur) :=
  ([Effect.httpPost p.url p.headers],
   if resp.status = 200 then format_shiurim resp.body
   else .error (.searchFailed
     ("Error fetching Rav Shiurim for Rav ID: " ++ toString p.rav_id) resp.status))

/-- `KolHalashonAPI.get_shiur_details`: one GET with the session manager's
headers; 200 is parsed by `_parse_shiur_details`, anything else raises
`ShiurDetailsNotFoundException(file_id)` — the constructor takes only the
file id, so the status code is dropped. -/
def KolHalashonAPI.get_shiur_details (sm : SessionManagerState) (file_id : Int)
    (resp : HttpResponse) :
    List Effect × Except ApiExc ShiurDetails :=
  let url := base_url ++ "TblShiurimLists/WebSite_GetShiurDetails/" ++ toString file_id
  ([Effect.httpGet url (session_headers sm)],
   if resp.status = 200 then KolHalashonAPI._parse_shiur_details resp.body
   else .error (.shiurDetailsNotFound file_id))

/-- `KolHalashonAPI.download_file`.  Without session-backed mode it raises
`SessionDisabledException` before any effect.  Otherwise it fetches a fresh
download key (a remote round trip, recorded in the trace; the key value is
an input since `utils/session_manager.py` is absent), computes the
quality-specific name, issues the streamed GET, and on 200 writes the body
to the file and returns the name; on non-200 it raises
`DownloadFailedException("Download failed", status, file_id, quality)`. -/
def KolHalashonAPI.download_file (use_session : Bool) (sm : SessionManagerState)
    (download_key : String) (file_id : Int) (quality_level : QualityLevel)
    (resp : HttpResponse) :
    List Effect × Except ApiExc String :=
  if !use_session then
    ([], .error .sessionDisabled)
  else
    let url := base_url ++ "files/GetFileDownload/" ++ toString file_id ++ "/" ++
      toString quality_level.value ++ "/" ++ download_key ++ "/null/false/false"
    let file_extension := if quality_level = QualityLevel.audio then "mp3" else "mp4"
    let quality_name :=
      if quality_level = QualityLevel.audio then "audio"
      else if quality_level = QualityLevel.video then "video"
      else "hd"
    let file_name := "shiur_" ++ toString file_id ++ "_" ++ quality_name ++ "." ++ file_extension
    let effs := [Effect.getDownloadKey file_id, Effect.httpGet url (session_headers sm)]
    if resp.status = 200 then
      (effs ++ [Effect.fileWrite file_name], .ok file_name)
    else
      (effs, .error (.downloadFailed "Download failed" resp.status file_id quality_level))

/-- What §3 of the spec demands of one mapped field `x`: the raw value when
the key is stored, the documented default `d` when it is absent. -/
def FieldSpec (fields : List (String × Json)) (k : String) (d x : Json) : Prop :=
  (∀ v, lookupJson fields k = some v → x = v) ∧ (lookupJson fields k = none → x = d)

theorem getD_fieldSpec (fields : List (String × Json)) (k : String) (d : Json) :
    FieldSpec fields k d (getD fields k d) := by
  constructor
  · intro v hv
    unfold getD
    unfold lookupJson at hv
    cases hfind : List.find? (fun p => p.1 = k) fields with
    | none => rw [hfind] at hv; simp at hv
    | some p => rw [hfind] at hv; simp at hv; simpa using hv
  · intro hv
    unfold getD
    unfold lookupJson at hv
    cases hfind : List.find? (fun p => p.1 = k) fields with
    | none => rfl
    | some p => rw [hfind] at hv; simp at hv

/-- C1: on every raw mapping entry, the search-item mapper succeeds and
fills every field from its documented key with its documented default
(`file_id`=0, `title`/`rav`/`record_date`/`main_topic`/`category_1`/
`category_2`="", `duration`/`shiur_type`="Unavailable", the five booleans
false, `download_count`=0); and on the concrete payload
`[{"FileId": 42, "TitleHebrew": "שלום"}]` the mapper yields exactly one
item with fileId 42, title "שלום", duration "Unavailable", audio
unavailable and download count 0. -/
theorem format_shiurim_fills_every_field :
    (∀ fields : List (String × Json), ∃ item,
      map_search_item (Json.obj fields) = Except.ok item
      ∧ FieldSpec fields "FileId" (Json.num 0) item.file_id
      ∧ FieldSpec fields "TitleHebrew" (Json.str "") item.title
      ∧ FieldSpec fields "UserNameHebrew" (Json.str "") item.rav
      ∧ FieldSpec fields "ShiurDuration" (Json.str "Unavailable") item.duration
      ∧ FieldSpec fields "RecordDate" (Json.str "") item.record_date
      ∧ FieldSpec fields "MainTopicHebrew" (Json.str "") item.main_topic
      ∧ FieldSpec fields "CatDesc1" (Json.str "") item.category_1
      ∧ FieldSpec fields "CatDesc2" (Json.str "") item.category_2
      ∧ FieldSpec fields "HasAudio" (Json.bool false) item.audio_available
      ∧ FieldSpec fields "HasVideo" (Json.bool false) item.video_available
      ∧ FieldSpec fields "HasHdVideo" (Json.bool false) item.hd_video_available
      ∧ FieldSpec fields "DownloadCount" (Json.num 0) item.download_count
      ∧ FieldSpec fields "IsWomenOnly" (Json.bool false) item.women_only
      ∧ FieldSpec fields "ShiurType" (Json.str "Unavailable") item.shiur_type
      ∧ FieldSpec fields "ViewdByUser" (Json.bool false) item.viewed_by_user)
    ∧ format_shiurim
        (Json.arr [Json.obj [("FileId", Json.num 42), ("TitleHebrew", Json.str "שלום")]])
      = Except.ok
        [{ file_id := Json.num 42
           title := Json.str "שלום"
           rav := Json.str ""
           duration := Json.str "Unavailable"
           record_date := Json.str ""
           main_topic := Json.str ""
           category_1 := Json.str ""
           category_2 := Json.str ""
           audio_available := Json.bool false
           video_available := Json.bool false
           hd_video_available := Json.bool false
           download_count := Json.num 0
           women_only := Json.bool false
           shiur_type := Json.str "Unavailable"
           viewed_by_user := Json.bool false }] := by
  constructor
  · intro fields
    exact ⟨_, rfl,
      getD_fieldSpec fields "FileId" (Json.num 0),
      getD_fieldSpec fields "TitleHebrew" (Json.str ""),
      getD_fieldSpec fields "UserNameHebrew" (Json.str ""),
      getD_fieldSpec fields "ShiurDuration" (Json.str "Unavailable"),
      getD_fieldSpec fields "RecordDate" (Json.str ""),
      getD_fieldSpec fields "MainTopicHebrew" (Json.str ""),
      getD_fieldSpec fields "CatDesc1" (Json.str ""),
      getD_fieldSpec fields "CatDesc2" (Json.str ""),
      getD_fieldSpec fields "HasAudio" (Json.bool false),
      getD_fieldSpec fields "HasVideo" (Json.bool false),
      getD_fieldSpec fields "HasHdVideo" (Json.bool false),
      getD_fieldSpec fields "DownloadCount" (Json.num 0),
      getD_fieldSpec fields "IsWomenOnly" (Json.bool false),
      getD_fieldSpec fields "ShiurType" (Json.str "Unavailable"),
      getD_fieldSpec fields "ViewdByUser" (Json.bool false)⟩
  · rfl

/-- C1 witness: the general part of the theorem instantiated on the
payload `{"FileId": 42, "TitleHebrew": "שלום"}`, discharging both the
present-key and the absent-key hypotheses concretely. -/
theorem format_shiurim_fills_every_field_witness :
    ∃ item,
      map_search_item (Json.obj [("FileId", Json.num 42), ("TitleHebrew", Json.str "שלום")])
        = Except.ok item
      ∧ item.file_id = Json.num 42
      ∧ item.title = Json.str "שלום"
      ∧ item.duration = Json.str "Unavailable"
      ∧ item.audio_available = Json.bool false
      ∧ item.download_count = Json.num 0 := by
  obtain ⟨item, hmap, hfid, htitle, _, hdur, _, _, _, _, haud, _, _, hdc, _, _, _⟩ :=
    format_shiurim_fills_every_field.1 [("FileId", Json.num 42), ("TitleHebrew", Json.str "שלום")]
  exact ⟨item, hmap, hfid.1 (Json.num 42) rfl, htitle.1 (Json.str "שלום") rfl,
    hdur.2 rfl, haud.2 rfl, hdc.2 rfl⟩

/-- C8: each response mapper fails exactly on inputs that are not mappings,
and then with the `malformedResponse` error kind; on any mapping, however
many keys it lacks, both mappers succeed. -/
theorem mappers_fail_only_on_non_mapping :
    ∀ j : Json,
      (j.isObj = false →
        map_search_item j = Except.error ApiExc.malformedResponse
        ∧ KolHalashonAPI._parse_shiur_details j = Except.error ApiExc.malformedResponse)
      ∧ (j.isObj = true →
        (∃ item, map_search_item j = Except.ok item)
        ∧ (∃ details, KolHalashonAPI._parse_shiur_details j = Except.ok details)) := by
  intro j
  cases j <;>
    simp [Json.isObj, map_search_item, KolHalashonAPI._parse_shiur_details]

/-- C8 witness: a non-mapping input (`null`) makes both mappers fail with
`malformedResponse`, and the empty mapping makes both succeed. -/
theorem mappers_fail_only_on_non_mapping_witness :
    (map_search_item Json.null = Except.error ApiExc.malformedResponse
      ∧ KolHalashonAPI._parse_shiur_details Json.null
          = Except.error ApiExc.malformedResponse)
    ∧ ((∃ item, map_search_item (Json.obj []) = Except.ok item)
      ∧ (∃ details, KolHalashonAPI._parse_shiur_details (Json.obj []) = Except.ok details)) :=
  ⟨(mappers_fail_only_on_non_mapping Json.null).1 rfl,
   (mappers_fail_only_on_non_mapping (Json.obj [])).2 rfl⟩

/-- With both credentials present, the login trace is the single POST to
the login endpoint with the fixed headers, whatever the response. -/
theorem login_trace_eq (u p : String) (sm : SessionManagerState) (resp : HttpResponse)
    (h : ¬(u = "" ∨ p = "")) :
    (KolHalashonAPI.login u p sm resp).1
      = [Effect.httpPost (base_url ++ "Accounts/UserLogin/") fixed_headers] := by
  simp only [KolHalashonAPI.login, if_neg h]
  by_cases hs : resp.status = 200
  · rw [if_pos hs]
    cases resp.body <;> (try rfl)
    all_goals simp [apply_ite Prod.fst]
  · rw [if_neg hs]

/-- C2: login with an empty credential fails with `AuthenticationError`
before any effect; with both credentials present it issues exactly one
POST, then fails with `AuthenticationError` carrying the status code on a
non-200 response, fails with `AuthenticationError` on a 200 body with no
`Token`, and on a 200 body with a (non-empty) token stores token and site
key — the site key defaulting to `""` when absent — via `set_tokens` and
returns `True`. -/
theorem login_contract :
    ∀ (u p : String) (sm : SessionManagerState) (resp : HttpResponse),
      ((u = "" ∨ p = "") →
        KolHalashonAPI.login u p sm resp
          = ([], Except.error (ApiExc.authenticationError "Username and password are required")))
      ∧ (¬(u = "" ∨ p = "") →
        (KolHalashonAPI.login u p sm resp).1
          = [Effect.httpPost (base_url ++ "Accounts/UserLogin/") fixed_headers])
      ∧ (¬(u = "" ∨ p = "") → resp.status ≠ 200 →
        (KolHalashonAPI.login u p sm resp).2
          = Except.error (ApiExc.authenticationError
              ("Login failed with status code " ++ toString resp.status)))
      ∧ (∀ data, ¬(u = "" ∨ p = "") → resp.status = 200 → resp.body = Json.obj data →
        lookupJson data "Token" = none →
        (KolHalashonAPI.login u p sm resp).2
          = Except.error (ApiExc.authenticationError "Login successful but no token found"))
      ∧ (∀ data t, ¬(u = "" ∨ p = "") → resp.status = 200 → resp.body = Json.obj data →
        getD data "Token" Json.null = Json.str t → t ≠ "" →
        (KolHalashonAPI.login u p sm resp).2
          = Except.ok (true, set_tokens sm (Json.str t) (getD data "SiteKey" (Json.str "")))) := by
  intro u p sm resp
  refine ⟨?_, ?_, ?_, ?_, ?_⟩
  · intro h
    simp only [KolHalashonAPI.login, if_pos h]
  · intro h
    exact login_trace_eq u p sm resp h
  · intro h hs
    simp only [KolHalashonAPI.login, if_neg h, if_neg hs]
  · intro data h hs hb htok
    have hd : getD data "Token" Json.null = Json.null := (getD_fieldSpec data "Token" Json.null).2 htok
    simp only [KolHalashonAPI.login, if_neg h, if_pos hs, hb, hd]
    rfl
  · intro data t h hs hb htok ht
    simp only [KolHalashonAPI.login, if_neg h, if_pos hs, hb, htok]
    have htruthy : (Json.str t).truthy = true := by simp [Json.truthy, ht]
    rw [if_pos htruthy]

/-- C2 witness: the four reachable outcomes at concrete inputs — empty
password, status 500, a 200 body without `Token`, and a 200 body with
`Token` and no `SiteKey` (so the site key defaults to `""`). -/
theorem login_contract_witness :
    (KolHalashonAPI.login "user" "" SessionManagerState.empty
        { status := 200, body := Json.obj [] }
      = ([], Except.error (ApiExc.authenticationError "Username and password are required")))
    ∧ ((KolHalashonAPI.login "user" "pw" SessionManagerState.empty
        { status := 500, body := Json.null }).2
      = Except.error (ApiExc.authenticationError "Login failed with status code 500"))
    ∧ ((KolHalashonAPI.login "user" "pw" SessionManagerState.empty
        { status := 200, body := Json.obj [] }).2
      = Except.error (ApiExc.authenticationError "Login successful but no token found"))
    ∧ ((KolHalashonAPI.login "user" "pw" SessionManagerState.empty
        { status := 200, body := Json.obj [("Token", Json.str "tok")] }).2
      = Except.ok (true, set_tokens SessionManagerState.empty (Json.str "tok") (Json.str ""))) := by
  refine ⟨?_, ?_, ?_, ?_⟩
  · exact (login_contract "user" "" SessionManagerState.empty
      { status := 200, body := Json.obj [] }).1 (Or.inr rfl)
  · exact (login_contract "user" "pw" SessionManagerState.empty
      { status := 500, body := Json.null }).2.2.1 (by simp) (by decide)
  · exact (login_contract "user" "pw" SessionManagerState.empty
      { status := 200, body := Json.obj [] }).2.2.2.1 [] (by simp) rfl rfl rfl
  · have h := (login_contract "user" "pw" SessionManagerState.empty
      { status := 200, body := Json.obj [("Token", Json.str "tok")] }).2.2.2.2
      [("Token", Json.str "tok")] "tok" (by simp) rfl rfl rfl (by decide)
    simpa using h

/-- C10: a 200 login response whose body maps `Token` to the empty string
is treated exactly like a missing token — `AuthenticationError`, and no
state is stored (the result is an error, so `set_tokens` is never
reached); consequently any login that returns successfully stored a truthy
token, which for a string token means a non-empty one. -/
theorem login_empty_token_rejected :
    ∀ (u p : String) (sm : SessionManagerState) (resp : HttpResponse)
      (data : List (String × Json)),
      (u ≠ "" → p ≠ "" → resp.status = 200 → resp.body = Json.obj data →
        getD data "Token" Json.null = Json.str "" →
        (KolHalashonAPI.login u p sm resp).2
          = Except.error (ApiExc.authenticationError "Login successful but no token found"))
      ∧ (∀ b sm2, (KolHalashonAPI.login u p sm resp).2 = Except.ok (b, sm2) →
        ∃ tok, sm2.authToken = some tok ∧ tok.truthy = true
          ∧ ∀ t : String, tok = Json.str t → t ≠ "") := by
  intro u p sm resp data
  constructor
  · intro hu hp hs hb htok
    have h : ¬(u = "" ∨ p = "") := by simp [hu, hp]
    have htruthy : (getD data "Token" Json.null).truthy = false := by
      rw [htok]; simp [Json.truthy]
    simp only [KolHalashonAPI.login, if_neg h, if_pos hs, hb, htruthy]
    rfl
  · intro b sm2 hok
    unfold KolHalashonAPI.login at hok
    split at hok
    · simp at hok
    · split at hok
      · cases hbody : resp.body <;> rw [hbody] at hok <;> simp at hok
        rename_i data2
        by_cases htruthy : (getD data2 "Token" Json.null).truthy
        · rw [if_pos htruthy] at hok
          simp at hok
          refine ⟨getD data2 "Token" Json.null, ?_, htruthy, ?_⟩
          · rw [← hok.2]; rfl
          · intro t hstr
            rw [hstr] at htruthy
            simpa [Json.truthy] using htruthy
        · rw [if_neg htruthy] at hok
          simp at hok
      · simp at hok

/-- C10 witness: a 200 body with `Token = ""` is rejected, and the
successful login of the C2 witness stored the non-empty token `"tok"`. -/
theorem login_empty_token_rejected_witness :
    ((KolHalashonAPI.login "user" "pw" SessionManagerState.empty
        { status := 200, body := Json.obj [("Token", Json.str "")] }).2
      = Except.error (ApiExc.authenticationError "Login successful but no token found"))
    ∧ (∃ tok,
        (set_tokens SessionManagerState.empty (Json.str "tok") (Json.str "")).authToken = some tok
        ∧ tok.truthy = true ∧ ∀ t : String, tok = Json.str t → t ≠ "") := by
  constructor
  · exact (login_empty_token_rejected "user" "pw" SessionManagerState.empty
      { status := 200, body := Json.obj [("Token", Json.str "")] }
      [("Token", Json.str "")]).1 (by decide) (by decide) rfl rfl rfl
  · exact (login_empty_token_rejected "user" "pw" SessionManagerState.empty
      { status := 200, body := Json.obj [("Token", Json.str "tok")] }
      []).2 true (set_tokens SessionManagerState.empty (Json.str "tok") (Json.str ""))
      (by simp [KolHalashonAPI.login, Json.truthy, getD, set_tokens])

/-- C3: during session-backed construction, `_init_session` calls login
with the configured credentials exactly when `load_session` fails with
`SessionNotLoadedException` or the restored token is invalid; when the
load succeeds and the token is valid, no login occurs. -/
theorem init_session_login_policy :
    ∀ (u p : String) (load : LoadOutcome),
      (KolHalashonAPI._init_session u p load = some (u, p)
        ↔ (load = LoadOutcome.notLoaded
            ∨ ∃ sm, load = LoadOutcome.loaded sm ∧ is_token_valid sm = false))
      ∧ (KolHalashonAPI._init_session u p load = none
        ↔ ∃ sm, load = LoadOutcome.loaded sm ∧ is_token_valid sm = true) := by
  intro u p load
  cases load with
  | loaded sm =>
    by_cases hv : is_token_valid sm <;>
      simp [KolHalashonAPI._init_session, hv]
  | notLoaded => simp [KolHalashonAPI._init_session]

/-- C4: calling `search_rav_shiurim` issues no request and raises nothing
(its effect trace is empty and it returns the suspended body); consuming
the returned sequence issues the single POST, raises
`SearchFailedException` carrying the rav id and the status on non-200, and
yields the mapped items on 200. -/
theorem search_rav_shiurim_lazy :
    ∀ (sm : SessionManagerState) (rav_id : Int) (resp : HttpResponse),
      (KolHalashonAPI.search_rav_shiurim sm rav_id).1 = []
      ∧ ((KolHalashonAPI.search_rav_shiurim sm rav_id).2.force resp).1
        = [Effect.httpPost (base_url ++ "Search/WebSite_GetRavShiurim/") (session_headers sm)]
      ∧ (resp.status ≠ 200 →
        ((KolHalashonAPI.search_rav_shiurim sm rav_id).2.force resp).2
          = Except.error (ApiExc.searchFailed
              ("Error fetching Rav Shiurim for Rav ID: " ++ toString rav_id) resp.status))
      ∧ (resp.status = 200 →
        ((KolHalashonAPI.search_rav_shiurim sm rav_id).2.force resp).2
          = format_shiurim resp.body) := by
  intro sm rav_id resp
  refine ⟨rfl, rfl, ?_, ?_⟩
  · intro hs
    simp [KolHalashonAPI.search_rav_shiurim, PendingSearch.force, hs]
  · intro hs
    simp [KolHalashonAPI.search_rav_shiurim, PendingSearch.force, hs]

/-- C4 witness: for rav id 5, the call's trace is empty; forcing the
sequence against a 503 response fails with the rav id and status, and
against a 200 response with body `[]` yields the mapped (empty) item
list. -/
theorem search_rav_shiurim_lazy_witness :
    (KolHalashonAPI.search_rav_shiurim SessionManagerState.empty 5).1 = []
    ∧ ((KolHalashonAPI.search_rav_shiurim SessionManagerState.empty 5).2.force
        { status := 503, body := Json.null }).2
      = Except.error (ApiExc.searchFailed "Error fetching Rav Shiurim for Rav ID: 5" 503)
    ∧ ((KolHalashonAPI.search_rav_shiurim SessionManagerState.empty 5).2.force
        { status := 200, body := Json.arr [] }).2
      = Except.ok [] := by
  refine ⟨(search_rav_shiurim_lazy SessionManagerState.empty 5
    { status := 503, body := Json.null }).1, ?_, ?_⟩
  · have h := (search_rav_shiurim_lazy SessionManagerState.empty 5
      { status := 503, body := Json.null }).2.2.1 (by decide)
    simpa using h
  · have h := (search_rav_shiurim_lazy SessionManagerState.empty 5
      { status := 200, body := Json.arr [] }).2.2.2 rfl
    simpa [format_shiurim] using h

/-- C5: without session-backed mode, `download_file` fails with
`SessionDisabledException` for every file id and quality, with an empty
effect trace: no download-key fetch, no HTTP call, no file write. -/
theorem download_file_session_disabled :
    ∀ (sm : SessionManagerState) (key : String) (file_id : Int)
      (q : QualityLevel) (resp : HttpResponse),
      KolHalashonAPI.download_file false sm key file_id q resp
        = ([], Except.error ApiExc.sessionDisabled) := by
  intro sm key file_id q resp
  rfl

/-- C6: in session-backed mode a 200 download response makes
`download_file` return the name `shiur_{fileId}_{qualityName}.{ext}` with
audio/mp3 for audio, video/mp4 for video and hd/mp4 for hd, while a
non-200 response raises `DownloadFailedException` carrying the status
code, the file id and the quality level. -/
theorem download_file_names_and_failure :
    ∀ (sm : SessionManagerState) (key : String) (file_id : Int)
      (q : QualityLevel) (resp : HttpResponse),
      (resp.status = 200 →
        (KolHalashonAPI.download_file true sm key file_id q resp).2
          = Except.ok ("shiur_" ++ toString file_id ++ "_" ++
              (match q with
               | QualityLevel.audio => "audio"
               | QualityLevel.video => "video"
               | QualityLevel.hd => "hd") ++ "." ++
              (match q with
               | QualityLevel.audio => "mp3"
               | QualityLevel.video => "mp4"
               | QualityLevel.hd => "mp4")))
      ∧ (resp.status ≠ 200 →
        (KolHalashonAPI.download_file true sm key file_id q resp).2
          = Except.error (ApiExc.downloadFailed "Download failed" resp.status file_id q)) := by
  intro sm key file_id q resp
  constructor
  · intro hs
    cases q <;> simp [KolHalashonAPI.download_file, hs]
  · intro hs
    cases q <;> simp [KolHalashonAPI.download_file, hs]

/-- C6 witness: `download_file(7, video)` against a 200 response returns
`"shiur_7_video.mp4"`, and against a 403 response fails with
`DownloadFailedException` carrying 403, 7 and video. -/
theorem download_file_names_and_failure_witness :
    ((KolHalashonAPI.download_file true SessionManagerState.empty "k" 7 QualityLevel.video
        { status := 200, body := Json.null }).2
      = Except.ok "shiur_7_video.mp4")
    ∧ ((KolHalashonAPI.download_file true SessionManagerState.empty "k" 7 QualityLevel.video
        { status := 403, body := Json.null }).2
      = Except.error (ApiExc.downloadFailed "Download failed" 403 7 QualityLevel.video)) := by
  constructor
  · have h := (download_file_names_and_failure SessionManagerState.empty "k" 7
      QualityLevel.video { status := 200, body := Json.null }).1 rfl
    simpa using h
  · exact (download_file_names_and_failure SessionManagerState.empty "k" 7
      QualityLevel.video { status := 403, body := Json.null }).2 (by decide)

/-- C9: `get_shiur_details` fails with `ShiurDetailsNotFoundException`
carrying the file id — and nothing else, the status code is dropped —
exactly when the response status is not 200; on 200 the body is handed to
the details mapper. -/
theorem get_shiur_details_not_found :
    ∀ (sm : SessionManagerState) (file_id : Int) (resp : HttpResponse),
      ((KolHalashonAPI.get_shiur_details sm file_id resp).2
          = Except.error (ApiExc.shiurDetailsNotFound file_id)
        ↔ resp.status ≠ 200)
      ∧ (resp.status = 200 →
        (KolHalashonAPI.get_shiur_details sm file_id resp).2
          = KolHalashonAPI._parse_shiur_details resp.body) := by
  intro sm file_id resp
  constructor
  · constructor
    · intro heq hs
      simp only [KolHalashonAPI.get_shiur_details, if_pos hs] at heq
      cases hb : resp.body <;> rw [hb] at heq <;> simp_all [KolHalashonAPI._parse_shiur_details]
    · intro hs
      simp [KolHalashonAPI.get_shiur_details, hs]
  · intro hs
    simp [KolHalashonAPI.get_shiur_details, hs]

/-- C9 witness: a 404 for file id 99 yields
`ShiurDetailsNotFoundException(99)`, and a 200 response is mapped. -/
theorem get_shiur_details_not_found_witness :
    ((KolHalashonAPI.get_shiur_details SessionManagerState.empty 99
        { status := 404, body := Json.null }).2
      = Except.error (ApiExc.shiurDetailsNotFound 99))
    ∧ ((KolHalashonAPI.get_shiur_details SessionManagerState.empty 99
        { status := 200, body := Json.obj [] }).2
      = KolHalashonAPI._parse_shiur_details (Json.obj [])) := by
  constructor
  · exact (get_shiur_details_not_found SessionManagerState.empty 99
      { status := 404, body := Json.null }).1.mpr (by decide)
  · exact (get_shiur_details_not_found SessionManagerState.empty 99
      { status := 200, body := Json.obj [] }).2 rfl

/-- The headers attached to an effect, when the effect is an HTTP request. -/
def Effect.headersOf : Effect → Option (List (String × String))
  | .httpPost _ hs => some hs
  | .httpGet _ hs => some hs
  | _ => none

/-- C7 counterexample: with a stored (valid) token — a session exists —
the one GET issued by `search_items` carries exactly the keys `origin` and
`referer`: no authorization header, contradicting the claim that every
request additionally carries one whenever a session exists, "in
particular ... searchItems". -/
theorem headers_claim_counterexample :
    is_token_valid (set_tokens SessionManagerState.empty (Json.str "tok") (Json.str "key"))
        = true
    ∧ (KolHalashonAPI.search_items
        (set_tokens SessionManagerState.empty (Json.str "tok") (Json.str "key"))
        "abc" (-1) { status := 200, body := Json.arr [] }).1
      = [Effect.httpGet
          (base_url ++ "Search/WebSite_GetSearchItems/abc/-1/1/4") fixed_headers]
    ∧ fixed_headers.map Prod.fst = ["origin", "referer"] := by
  refine ⟨rfl, ?_, rfl⟩
  have hurl : base_url ++ "Search/WebSite_GetSearchItems/" ++ "abc" ++ "/" ++
      toString (-1 : Int) ++ "/1/4"
      = base_url ++ "Search/WebSite_GetSearchItems/abc/-1/1/4" := by decide
  show [Effect.httpGet (base_url ++ "Search/WebSite_GetSearchItems/" ++ "abc" ++ "/" ++
      toString (-1 : Int) ++ "/1/4") fixed_headers] = _
  rw [hurl]

/-- C7 amended: every request carries the fixed `origin` and `referer`
headers; the requests built from the session manager's headers — the
`search_rav_shiurim` POST, the `get_shiur_details` GET and the
`download_file` GET — additionally carry an authorization header derived
from the stored token when a session exists; but the login POST and the
`search_items` GET use only the two fixed headers, with no authorization
header even when a session exists. -/
theorem headers_claim_amended :
    ∀ (sm : SessionManagerState) (t u p keyword key : String)
      (uid rav_id file_id : Int) (q : QualityLevel) (resp : HttpResponse),
      sm.authToken = some (Json.str t) →
      (session_headers sm = fixed_headers ++ [("authorization", "Bearer " ++ t)])
      ∧ ("origin" ∈ fixed_headers.map Prod.fst ∧ "referer" ∈ fixed_headers.map Prod.fst)
      ∧ ("authorization" ∈ (session_headers sm).map Prod.fst)
      ∧ ((KolHalashonAPI.search_items sm keyword uid resp).1
          = [Effect.httpGet
              (base_url ++ "Search/WebSite_GetSearchItems/" ++ keyword ++ "/" ++
                toString uid ++ "/1/4") fixed_headers])
      ∧ (u ≠ "" → p ≠ "" →
          (KolHalashonAPI.login u p sm resp).1
            = [Effect.httpPost (base_url ++ "Accounts/UserLogin/") fixed_headers])
      ∧ (((KolHalashonAPI.search_rav_shiurim sm rav_id).2.force resp).1
          = [Effect.httpPost (base_url ++ "Search/WebSite_GetRavShiurim/")
              (session_headers sm)])
      ∧ ((KolHalashonAPI.get_shiur_details sm file_id resp).1
          = [Effect.httpGet
              (base_url ++ "TblShiurimLists/WebSite_GetShiurDetails/" ++ toString file_id)
              (session_headers sm)])
      ∧ (∀ e ∈ (KolHalashonAPI.download_file true sm key file_id q resp).1,
          ∀ hs, e.headersOf = some hs → hs = session_headers sm) := by
  intro sm t u p keyword key uid rav_id file_id q resp htok
  have hsess : session_headers sm = fixed_headers ++ [("authorization", "Bearer " ++ t)] := by
    simp [session_headers, htok]
  refine ⟨hsess, ⟨by simp [fixed_headers], by simp [fixed_headers]⟩, ?_, rfl, ?_, rfl, rfl, ?_⟩
  · rw [hsess]; simp
  · intro hu hp
    exact login_trace_eq u p sm resp (by simp [hu, hp])
  · intro e he hs hhs
    by_cases hst : resp.status = 200
    · simp [KolHalashonAPI.download_file, hst] at he
      rcases he with he | he | he
      · subst he; simp [Effect.headersOf] at hhs
      · subst he; simp [Effect.headersOf] at hhs; simp [hhs]
      · subst he; simp [Effect.headersOf] at hhs
    · simp [KolHalashonAPI.download_file, hst] at he
      rcases he with he | he
      · subst he; simp [Effect.headersOf] at hhs
      · subst he; simp [Effect.headersOf] at hhs; simp [hhs]

/-- C7 amended witness: instantiated with a stored token `"tok"`, concrete
credentials, ids and a 200 response; the download trace check is applied to
the GET effect of the trace. -/
theorem headers_claim_amended_witness :
    (session_headers (set_tokens SessionManagerState.empty (Json.str "tok") (Json.str "key"))
        = fixed_headers ++ [("authorization", "Bearer tok")])
    ∧ ((KolHalashonAPI.login "user" "pw"
        (set_tokens SessionManagerState.empty (Json.str "tok") (Json.str "key"))
        { status := 200, body := Json.obj [("Token", Json.str "tok")] }).1
      = [Effect.httpPost (base_url ++ "Accounts/UserLogin/") fixed_headers]) := by
  have h := headers_claim_amended
    (set_tokens SessionManagerState.empty (Json.str "tok") (Json.str "key"))
    "tok" "user" "pw" "abc" "k" (-1) 5 7 QualityLevel.video
    { status := 200, body := Json.obj [("Token", Json.str "tok")] } rfl
  exact ⟨h.1, h.2.2.2.2.1 (by decide) (by decide)⟩

end KolHalashon
